import Mathlib

/-!
Shallow embedding of the occupancy-grid mapping engine
(src/esp32_firmware/src/mapping/slam_mapper.cpp) and of the autonomous
navigation state machine (src/esp32_firmware/src/modes/autonomous_mode.cpp)
of the surveillance-rover firmware, together with proofs settling the
specification claims about them.

Modelling conventions:
* C++ `float` quantities are modelled as exact rationals (`ℚ`).
* The `(int)` cast of C++ truncates toward zero; it is modelled by
  `ratTrunc`.
* `millis()` timestamps are natural numbers; `unsigned long` subtraction is
  modelled by truncated `ℕ` subtraction (faithful whenever clocks are
  monotone, which every claim here assumes).
* The direction factors `cos(carAngle + angle)` and `sin(carAngle + angle)`
  computed by the firmware are transcendental; the embedding takes the pair
  `(c, s)` of their values as explicit rational parameters.  Every claim
  proved below is uniform in this pair.
* The 2D cell array is modelled as a total function `ℤ × ℤ → MapCell`;
  all mutation goes through the bounds-checked `updateMapCell`, exactly as
  in the source.
-/

namespace Rover

/-- Truncation toward zero, the semantics of the C++ `(int)` cast applied to
a (mathematically exact) real value. -/
def ratTrunc (q : ℚ) : ℤ := if 0 ≤ q then ⌊q⌋ else ⌈q⌉

/-- Map cell classifications, from `enum MapCellType` in slam_mapper.h. -/
inductive MapCellType
  | UNKNOWN
  | FREE
  | OBSTACLE
  | WAYPOINT
  | CAR_POSITION
deriving DecidableEq

/-- One grid cell, from `struct MapCell` in slam_mapper.h. -/
structure MapCell where
  type : MapCellType
  confidence : ℚ
  timestamp : ℕ
  visited : Bool
deriving DecidableEq

/-- Map configuration, from `struct MapConfig` in slam_mapper.h. -/
structure MapConfig where
  cellSize : ℚ
  mapWidth : ℕ
  mapHeight : ℕ
  originX : ℚ
  originY : ℚ
  maxRange : ℚ
  minRange : ℚ
deriving DecidableEq

/-- The configuration installed by the `SLAMMapper` constructor
(slam_mapper.cpp lines 15-21). -/
def defaultConfig : MapConfig :=
  { cellSize := 1/10, mapWidth := 200, mapHeight := 200,
    originX := 10, originY := 10, maxRange := 4, minRange := 1/20 }

/-- Occupancy commit threshold, set to 0.7 in the constructor and never
reassigned anywhere in the repository. -/
def occupancyThreshold : ℚ := 7/10

/-- Free commit threshold, set to 0.3 in the constructor and never
reassigned anywhere in the repository. -/
def freeThreshold : ℚ := 3/10

/-- The cell array, as a total function on integer grid coordinates
`(x, y)`.  The source only ever reads or writes it through bounds-checked
code paths. -/
abbrev Grid := ℤ × ℤ → MapCell

/-- The value every cell is given by `SLAMMapper::initialize`:
`{UNKNOWN, 0.0, 0, false}`. -/
def initialCell : MapCell := ⟨.UNKNOWN, 0, 0, false⟩

/-- A freshly initialized grid. -/
def initGrid : Grid := fun _ => initialCell

/-- Point update of the cell array (`map[y][x] = c`). -/
def setCell (g : Grid) (p : ℤ × ℤ) (c : MapCell) : Grid :=
  fun q => if q = p then c else g q

/-- The bounds check `x >= 0 && x < mapWidth && y >= 0 && y < mapHeight`
used throughout slam_mapper.cpp. -/
abbrev inBounds (cfg : MapConfig) (p : ℤ × ℤ) : Prop :=
  0 ≤ p.1 ∧ p.1 < (cfg.mapWidth : ℤ) ∧ 0 ≤ p.2 ∧ p.2 < (cfg.mapHeight : ℤ)

namespace SLAM

/-- `SLAMMapper::worldToMap` (slam_mapper.cpp lines 286-291): the
world-to-grid transform, truncating with the `(int)` cast. -/
def worldToMap (cfg : MapConfig) (worldX worldY : ℚ) : ℤ × ℤ :=
  (ratTrunc ((worldX + cfg.originX) / cfg.cellSize),
   ratTrunc ((worldY + cfg.originY) / cfg.cellSize))

/-- `SLAMMapper::mapToWorld` (slam_mapper.cpp lines 293-298): the
grid-to-world transform. -/
def mapToWorld (cfg : MapConfig) (mapX mapY : ℤ) : ℚ × ℚ :=
  ((mapX : ℚ) * cfg.cellSize - cfg.originX,
   (mapY : ℚ) * cfg.cellSize - cfg.originY)

/-- The per-cell body of `SLAMMapper::updateMapCell`
(slam_mapper.cpp lines 256-283), applied to the current cell value. -/
def applyCellUpdate (incoming : MapCellType) (confidence : ℚ) (t : ℕ)
    (cell : MapCell) : MapCell :=
  if incoming = .OBSTACLE then
    let c :=
      if cell.type = .FREE then (cell.confidence + confidence) / 2
      else max cell.confidence confidence
    { type := if occupancyThreshold < c then .OBSTACLE else cell.type,
      confidence := c, timestamp := t, visited := cell.visited }
  else if incoming = .FREE then
    let c :=
      if cell.type = .OBSTACLE then min cell.confidence (1 - confidence)
      else max cell.confidence confidence
    { type := if freeThreshold < c then .FREE else cell.type,
      confidence := c, timestamp := t, visited := cell.visited }
  else
    { type := incoming, confidence := confidence, timestamp := t,
      visited := cell.visited }

/-- `SLAMMapper::updateMapCell` (slam_mapper.cpp lines 253-284): the single
mutation entry point for grid cells; a no-op out of bounds. -/
def updateMapCell (cfg : MapConfig) (g : Grid) (x y : ℤ)
    (incoming : MapCellType) (confidence : ℚ) (t : ℕ) : Grid :=
  if inBounds cfg (x, y) then
    setCell g (x, y) (applyCellUpdate incoming confidence t (g (x, y)))
  else g

/-- `SLAMMapper::updateObstacle` (slam_mapper.cpp lines 224-233): marks the
beam endpoint cell Obstacle with fixed sensor confidence 0.8.  `c`/`s` are
the values of `cos(carAngle + angle)` and `sin(carAngle + angle)`. -/
def updateObstacle (cfg : MapConfig) (g : Grid) (carX carY c s d : ℚ)
    (t : ℕ) : Grid :=
  let mp := worldToMap cfg (carX + d * c) (carY + d * s)
  if inBounds cfg mp then updateMapCell cfg g mp.1 mp.2 .OBSTACLE (4/5) t
  else g

/-- One iteration of the ray-walk loop of `SLAMMapper::updateFreeSpace`
(slam_mapper.cpp lines 240-250): sample the ray at distance
`i * cellSize/2` and mark the sampled cell Free with confidence 0.6. -/
def freeSpaceStep (cfg : MapConfig) (carX carY c s : ℚ) (t : ℕ)
    (acc : Grid) (i : ℕ) : Grid :=
  let rayDistance := (i : ℚ) * (cfg.cellSize / 2)
  let mp := worldToMap cfg (carX + rayDistance * c) (carY + rayDistance * s)
  if inBounds cfg mp then updateMapCell cfg acc mp.1 mp.2 .FREE (3/5) t
  else acc

/-- `SLAMMapper::updateFreeSpace` (slam_mapper.cpp lines 235-251): walks the
ray from the car toward the endpoint in steps of `cellSize/2`, marking each
sampled in-bounds cell Free with fixed confidence 0.6 (loop index `i` runs
from 1 to `steps - 1`). -/
def updateFreeSpace (cfg : MapConfig) (g : Grid) (carX carY c s d : ℚ)
    (t : ℕ) : Grid :=
  let steps := ratTrunc (d / (cfg.cellSize / 2))
  ((List.range steps.toNat).drop 1).foldl (freeSpaceStep cfg carX carY c s t) g

/-- `SLAMMapper::updateOccupancyGrid` (slam_mapper.cpp lines 207-222): if
the beam endpoint falls inside the grid, mark it Obstacle and clear the ray;
otherwise do nothing at all. -/
def updateOccupancyGrid (cfg : MapConfig) (g : Grid) (carX carY c s d : ℚ)
    (t : ℕ) : Grid :=
  let mp := worldToMap cfg (carX + d * c) (carY + d * s)
  if inBounds cfg mp then
    updateFreeSpace cfg (updateObstacle cfg g carX carY c s d t)
      carX carY c s d t
  else g

/-- The ultrasonic branch of `SLAMMapper::processSensorData`
(slam_mapper.cpp lines 183-185): integrate only when
`minRange < d < maxRange`. -/
def integrateUltrasonicReading (cfg : MapConfig) (g : Grid)
    (carX carY c s d : ℚ) (t : ℕ) : Grid :=
  if cfg.minRange < d ∧ d < cfg.maxRange then
    updateOccupancyGrid cfg g carX carY c s d t
  else g

/-- An IR branch of `SLAMMapper::processSensorData`
(slam_mapper.cpp lines 188-196): integrate only when `0 < d < maxRange`
(note: the lower bound is 0, not `minRange`). -/
def integrateIRReading (cfg : MapConfig) (g : Grid)
    (carX carY c s d : ℚ) (t : ℕ) : Grid :=
  if 0 < d ∧ d < cfg.maxRange then
    updateOccupancyGrid cfg g carX carY c s d t
  else g

/-- `SLAMMapper::processSensorData` (slam_mapper.cpp lines 177-205):
process the four beams in source order, then mark the car's own cell
visited.  Each beam carries its own direction pair `(cU, sU)`, ... taken
from the trigonometry the firmware computes for it. -/
def processSensorData (cfg : MapConfig) (g : Grid) (carX carY : ℚ)
    (cU sU cL sL cC sC cR sR : ℚ) (dU dL dC dR : ℚ) (t : ℕ) : Grid :=
  let g1 := integrateUltrasonicReading cfg g carX carY cU sU dU t
  let g2 := integrateIRReading cfg g1 carX carY cL sL dL t
  let g3 := integrateIRReading cfg g2 carX carY cC sC dC t
  let g4 := integrateIRReading cfg g3 carX carY cR sR dR t
  let mp := worldToMap cfg carX carY
  if inBounds cfg mp then
    setCell g4 mp { g4 mp with visited := true, timestamp := t }
  else g4

end SLAM

/-- Cell update rule exactly as the specification words it (spec.md §4.1
`updateCell`): returns the classification and confidence the spec says the
cell must end with.  Written from the spec, to be compared with the
source-derived `SLAM.applyCellUpdate`. -/
def specCellUpdate (incoming : MapCellType) (incomingConf : ℚ)
    (cell : MapCell) : MapCellType × ℚ :=
  match incoming with
  | .OBSTACLE =>
    let conf :=
      if cell.type = .FREE then (cell.confidence + incomingConf) / 2
      else max cell.confidence incomingConf
    (if conf > occupancyThreshold then .OBSTACLE else cell.type, conf)
  | .FREE =>
    let conf :=
      if cell.type = .OBSTACLE then min cell.confidence (1 - incomingConf)
      else max cell.confidence incomingConf
    (if conf > freeThreshold then .FREE else cell.type, conf)
  | other => (other, incomingConf)

namespace Auto

/-- Navigation states, from `enum NavigationState` in autonomous_mode.h. -/
inductive NavigationState
  | NAV_FORWARD
  | NAV_TURN_LEFT
  | NAV_TURN_RIGHT
  | NAV_BACKWARD
  | NAV_STOP
  | NAV_AVOID_LEFT
  | NAV_AVOID_RIGHT
deriving DecidableEq

/-- One motor directive, the calls `executeState` can make on the motor
controller (autonomous_mode.cpp lines 393-425). -/
inductive MotorDirective
  | moveForward (speed : ℕ)
  | moveBackward (speed : ℕ)
  | turnLeft (speed : ℕ)
  | turnRight (speed : ℕ)
  | stop
deriving DecidableEq

/-- Tick interval in ms, constructor value 100 (autonomous_mode.cpp:19). -/
def updateInterval : ℕ := 100

/-- State timeout in ms, constructor value 3000 (autonomous_mode.cpp:32). -/
def stateTimeout : ℕ := 3000

/-- Safety check interval in ms, constructor value 500
(autonomous_mode.cpp:39). -/
def safetyCheckInterval : ℕ := 500

/-- Maximum continuous obstacle time in ms, constructor value 10000
(autonomous_mode.cpp:40). -/
def maxObstacleTime : ℕ := 10000

/-- Speed constants from the constructor (autonomous_mode.cpp lines 33-36). -/
def baseSpeed : ℕ := 150

/-- Turn speed, constructor value 120. -/
def turnSpeed : ℕ := 120

/-- Avoidance speed, constructor value 100. -/
def avoidSpeed : ℕ := 100

/-- Reverse speed, constructor value 100. -/
def reverseSpeed : ℕ := 100

/-- The mutable members of `AutonomousMode` that the tick path reads or
writes (autonomous_mode.h). -/
structure ArbiterState where
  isActive : Bool
  isPaused : Bool
  lastUpdate : ℕ
  obstacleDetected : Bool
  obstacleDistance : ℚ
  obstacleStartTime : ℕ
  lineFollowingEnabled : Bool
  linePosition : ℤ
  lastLinePosition : ℤ
  currentState : NavigationState
  lastState : NavigationState
  stateStartTime : ℕ
  safetyEnabled : Bool
  lastSafetyCheck : ℕ
deriving DecidableEq

/-- `AutonomousMode::setState` (autonomous_mode.cpp lines 296-307): commit
a state change, recording the transition timestamp; a no-op when the state
is unchanged. -/
def setState (s : ArbiterState) (state : NavigationState) (t : ℕ) :
    ArbiterState :=
  if state = s.currentState then s
  else { s with lastState := s.currentState, currentState := state,
                stateStartTime := t }

/-- `AutonomousMode::updateSensors` (autonomous_mode.cpp lines 352-379):
fuse the three IR triggers and the ultrasonic distance into the obstacle
condition and track the obstacle start time. -/
def updateSensors (s : ArbiterState) (left center right : Bool)
    (distance : ℚ) (t : ℕ) : ArbiterState :=
  let det := left || center || right || decide (distance < 20)
  { s with obstacleDetected := det, obstacleDistance := distance,
           obstacleStartTime :=
             if det then (if s.obstacleStartTime = 0 then t
                          else s.obstacleStartTime)
             else 0 }

/-- `AutonomousMode::checkSafety` (autonomous_mode.cpp lines 427-444):
rate-limited watchdog; on a prolonged obstacle it sets the Stop state and
raises the siren alert (the Boolean result). -/
def checkSafety (s : ArbiterState) (t : ℕ) : ArbiterState × Bool :=
  if t - s.lastSafetyCheck < safetyCheckInterval then (s, false)
  else if s.obstacleDetected = true ∧ 0 < s.obstacleStartTime
      ∧ maxObstacleTime < t - s.obstacleStartTime then
    ({ setState s .NAV_STOP t with lastSafetyCheck := t }, true)
  else ({ s with lastSafetyCheck := t }, false)

/-- `AutonomousMode::avoidObstacles` (autonomous_mode.cpp lines 210-239):
the obstacle-priority state selection rule. -/
def avoidObstacles (s : ArbiterState) (left center right : Bool) (t : ℕ) :
    ArbiterState :=
  if s.obstacleDetected = false then s
  else if center then
    if s.obstacleDistance < 15 then setState s .NAV_BACKWARD t
    else if !left && right then setState s .NAV_AVOID_LEFT t
    else if left && !right then setState s .NAV_AVOID_RIGHT t
    else setState s .NAV_BACKWARD t
  else if left then setState s .NAV_AVOID_RIGHT t
  else if right then setState s .NAV_AVOID_LEFT t
  else s

/-- `AutonomousMode::followLine` (autonomous_mode.cpp lines 241-282): the
line-position discretization and steering rule; the same IR sensors double
as line sensors. -/
def followLine (s : ArbiterState) (left center right : Bool) (t : ℕ) :
    ArbiterState :=
  if s.lineFollowingEnabled = false then s
  else
    let lp : ℤ :=
      if left && center && right then 0
      else if left && center then -1
      else if center && right then 1
      else if left then -2
      else if right then 2
      else if s.lastLinePosition < 0 then -2
      else 2
    let s1 := { s with linePosition := lp, lastLinePosition := lp }
    if lp = 0 then setState s1 .NAV_FORWARD t
    else if lp < 0 then setState s1 .NAV_TURN_LEFT t
    else setState s1 .NAV_TURN_RIGHT t

/-- `AutonomousMode::processObstacles` (autonomous_mode.cpp lines 381-385). -/
def processObstacles (s : ArbiterState) (left center right : Bool)
    (t : ℕ) : ArbiterState :=
  if s.obstacleDetected then avoidObstacles s left center right t else s

/-- `AutonomousMode::processLineFollowing`
(autonomous_mode.cpp lines 387-391). -/
def processLineFollowing (s : ArbiterState) (left center right : Bool)
    (t : ℕ) : ArbiterState :=
  if s.obstacleDetected = false then followLine s left center right t else s

/-- `AutonomousMode::executeState` (autonomous_mode.cpp lines 393-425): the
single motor directive issued for the current navigation state. -/
def executeState (s : ArbiterState) : MotorDirective :=
  match s.currentState with
  | .NAV_FORWARD => .moveForward baseSpeed
  | .NAV_TURN_LEFT => .turnLeft turnSpeed
  | .NAV_TURN_RIGHT => .turnRight turnSpeed
  | .NAV_BACKWARD => .moveBackward reverseSpeed
  | .NAV_STOP => .stop
  | .NAV_AVOID_LEFT => .turnLeft avoidSpeed
  | .NAV_AVOID_RIGHT => .turnRight avoidSpeed

/-- `AutonomousMode::navigate` (autonomous_mode.cpp lines 197-208):
obstacles first, then line following if enabled, then execute. -/
def navigate (s : ArbiterState) (left center right : Bool) (t : ℕ) :
    ArbiterState × MotorDirective :=
  let s1 := processObstacles s left center right t
  let s2 := if s1.lineFollowingEnabled then
      processLineFollowing s1 left center right t
    else s1
  (s2, executeState s2)

/-- `AutonomousMode::updateState` together with
`AutonomousMode::isStateTimeout` (autonomous_mode.cpp lines 309-319 and
456-458): recover to Forward from a timed-out avoidance state. -/
def updateState (s : ArbiterState) (t : ℕ) : ArbiterState :=
  if stateTimeout < t - s.stateStartTime then
    if s.currentState = .NAV_BACKWARD then setState s .NAV_FORWARD t
    else if s.currentState = .NAV_AVOID_LEFT
        ∨ s.currentState = .NAV_AVOID_RIGHT then setState s .NAV_FORWARD t
    else s
  else s

/-- `AutonomousMode::update` (autonomous_mode.cpp lines 174-195): one full
tick.  Returns the post-tick state, the motor directive issued by
`executeState` (none when the tick is gated off), and whether the safety
alert sounded. -/
def update (s : ArbiterState) (left center right : Bool) (distance : ℚ)
    (t : ℕ) : ArbiterState × Option MotorDirective × Bool :=
  if s.isActive = false ∨ s.isPaused = true then (s, none, false)
  else if t - s.lastUpdate < updateInterval then (s, none, false)
  else
    let s1 := updateSensors s left center right distance t
    let sa := if s1.safetyEnabled then checkSafety s1 t else (s1, false)
    let nv := navigate sa.1 left center right t
    let s4 := updateState nv.1 t
    ({ s4 with lastUpdate := t }, some nv.2, sa.2)

end Auto

/-- Fixture for the prolonged-obstacle scenario: active arbiter in
AvoidLeft, obstacle continuously asserted since t = 9000 ms, safety
enabled, line following enabled, last tick at 19800 ms. -/
def c2State : Auto.ArbiterState :=
  { isActive := true, isPaused := false, lastUpdate := 19800,
    obstacleDetected := true, obstacleDistance := 10,
    obstacleStartTime := 9000, lineFollowingEnabled := true,
    linePosition := 0, lastLinePosition := 0,
    currentState := .NAV_AVOID_LEFT, lastState := .NAV_FORWARD,
    stateStartTime := 19900, safetyEnabled := true, lastSafetyCheck := 0 }

/-- Fixture for the obstacle-priority rule: an obstacle is detected at
distance 10 cm. -/
def c6State : Auto.ArbiterState :=
  { isActive := true, isPaused := false, lastUpdate := 0,
    obstacleDetected := true, obstacleDistance := 10,
    obstacleStartTime := 100, lineFollowingEnabled := true,
    linePosition := 0, lastLinePosition := 0,
    currentState := .NAV_FORWARD, lastState := .NAV_FORWARD,
    stateStartTime := 0, safetyEnabled := true, lastSafetyCheck := 0 }

/-- Fixture for the state-timeout scenario: arbiter in AvoidLeft since
t = 900 ms (3100 ms before the tick at t = 4000 ms), no obstacle, line
following enabled. -/
def c8State : Auto.ArbiterState :=
  { isActive := true, isPaused := false, lastUpdate := 0,
    obstacleDetected := false, obstacleDistance := 100,
    obstacleStartTime := 0, lineFollowingEnabled := true,
    linePosition := 0, lastLinePosition := 0,
    currentState := .NAV_AVOID_LEFT, lastState := .NAV_FORWARD,
    stateStartTime := 900, safetyEnabled := true, lastSafetyCheck := 0 }

/-- The state-timeout fixture with line following disabled. -/
def c8StateNoLine : Auto.ArbiterState :=
  { c8State with lineFollowingEnabled := false }

/-- Rounding to two decimal places: the precision of Arduino
`String(float)`, with which `generateMapXML` prints every float
(slam_mapper.cpp lines 107-151). -/
def round2 (q : ℚ) : ℚ := (round (q * 100) : ℚ) / 100

/-- In-memory waypoint, from `struct Waypoint` in slam_mapper.h. -/
structure Waypoint where
  id : ℕ
  x : ℚ
  y : ℚ
  name : String
  timestamp : ℕ
  visited : Bool
deriving DecidableEq

/-- One serialized `cell` element of the map document
(`generateMapXML`, slam_mapper.cpp lines 122-135). -/
structure CellEntry where
  cx : ℕ
  cy : ℕ
  ctype : MapCellType
  confidence : ℚ
  visited : Bool
  timestamp : ℕ
deriving DecidableEq

/-- One serialized `waypoint` element (`generateWaypointXML`,
slam_mapper.cpp lines 143-155). -/
structure WaypointEntry where
  id : ℕ
  x : ℚ
  y : ℚ
  name : String
  visited : Bool
  timestamp : ℕ
deriving DecidableEq

/-- The serialized map document of spec §6, at the structured level
(config, car pose, sparse cell list, waypoint list); the XML text framing
carries no further information. -/
structure MapDocument where
  cellSize : ℚ
  width : ℕ
  height : ℕ
  originX : ℚ
  originY : ℚ
  maxRange : ℚ
  minRange : ℚ
  carX : ℚ
  carY : ℚ
  carAngle : ℚ
  cells : List CellEntry
  waypoints : List WaypointEntry
deriving DecidableEq

/-- The sparse-emission test of `generateMapXML` line 126:
`cell.type != UNKNOWN || cell.visited`. -/
abbrev emitCell (c : MapCell) : Prop := c.type ≠ .UNKNOWN ∨ c.visited = true

/-- One row of the serialized cell list (the inner loop of
`generateMapXML`, slam_mapper.cpp lines 124-133). -/
def cellRow (g : Grid) (w : ℕ) (y : ℕ) : List CellEntry :=
  (List.range w).filterMap (fun (x : ℕ) =>
    if emitCell (g ((x : ℤ), (y : ℤ))) then
      some ⟨x, y, (g ((x : ℤ), (y : ℤ))).type,
            round2 (g ((x : ℤ), (y : ℤ))).confidence,
            (g ((x : ℤ), (y : ℤ))).visited,
            (g ((x : ℤ), (y : ℤ))).timestamp⟩
    else none)

/-- The full serialized cell list, row by row (`generateMapXML`,
slam_mapper.cpp lines 122-135). -/
def cellEntries (cfg : MapConfig) (g : Grid) : List CellEntry :=
  (List.range cfg.mapHeight).flatMap (cellRow g cfg.mapWidth)

/-- The serialized waypoint list (`generateWaypointXML`,
slam_mapper.cpp lines 143-155), coordinates at `String(float)`
precision. -/
def waypointEntries (ws : List Waypoint) : List WaypointEntry :=
  ws.map (fun w =>
    ⟨w.id, round2 w.x, round2 w.y, w.name, w.visited, w.timestamp⟩)

/-- The in-memory mapper state that serialization reads. -/
structure MapperState where
  config : MapConfig
  grid : Grid
  carX : ℚ
  carY : ℚ
  carAngle : ℚ
  waypoints : List Waypoint

/-- `SLAMMapper::generateMapXML` (slam_mapper.cpp lines 103-141), modelled
at the structured-document level: configuration and pose at
`String(float)` precision, the sparse cell list, and the waypoint list. -/
def generateMapXML (m : MapperState) : MapDocument :=
  { cellSize := round2 m.config.cellSize, width := m.config.mapWidth,
    height := m.config.mapHeight, originX := round2 m.config.originX,
    originY := round2 m.config.originY, maxRange := round2 m.config.maxRange,
    minRange := round2 m.config.minRange, carX := round2 m.carX,
    carY := round2 m.carY, carAngle := round2 m.carAngle,
    cells := cellEntries m.config m.grid,
    waypoints := waypointEntries m.waypoints }

/-- The coordinate test of the loader: the entry for grid cell (x0, y0). -/
def entryMatches (x0 y0 : ℕ) (e : CellEntry) : Bool :=
  e.cx == x0 && e.cy == y0

/-- Modelled from the spec: the map loader.  `parseMapXML` is declared and
invoked by `SLAMMapper::loadMap` (slam_mapper.cpp line 65, slam_mapper.h
line 88) but its definition is absent from the repository, so the cell
reconstruction follows spec §4.1/§6: every listed cell is restored with
its serialized classification, confidence, visited flag and timestamp, and
"loaders must default any unlisted cell to Unknown/confidence 0/visited
false". -/
def loadCells (doc : MapDocument) : Grid := fun p =>
  if 0 ≤ p.1 ∧ 0 ≤ p.2 then
    match doc.cells.find? (entryMatches p.1.toNat p.2.toNat) with
    | some e => ⟨e.ctype, e.confidence, e.timestamp, e.visited⟩
    | none => initialCell
  else initialCell

/-- Modelled from the spec: the waypoint part of the loader (see
`loadCells`); each serialized waypoint entry is restored in order. -/
def loadWaypoints (doc : MapDocument) : List Waypoint :=
  doc.waypoints.map (fun e =>
    ⟨e.id, e.x, e.y, e.name, e.timestamp, e.visited⟩)

/-- Fixture for the serialization round trip: a 2-by-2 map with one
visited Obstacle cell and one waypoint with 2-decimal-exact
coordinates. -/
def c5State : MapperState :=
  { config := ⟨1, 2, 2, 0, 0, 4, 1/20⟩,
    grid := setCell initGrid (1, 0) ⟨.OBSTACLE, 4/5, 7, true⟩,
    carX := 0, carY := 0, carAngle := 0,
    waypoints := [⟨3, 1/2, 2, "A", 5, false⟩] }

/-- Fixture for the serialization counterexample: a waypoint at
x = 1/8 = 0.125, which the 2-decimal serializer rounds to 0.13. -/
def c5BadState : MapperState :=
  { config := ⟨1, 2, 2, 0, 0, 4, 1/20⟩, grid := initGrid,
    carX := 0, carY := 0, carAngle := 0,
    waypoints := [⟨3, 1/8, 0, "A", 5, false⟩] }

/-- CLAIM C1.  For every in-bounds cell update, the stored classification
and confidence after `updateMapCell(gx, gy, classification, confidence)`
are exactly the ones the specification's blend/commit rule prescribes:
Obstacle blends `(current+incoming)/2` on Free cells and takes the max
otherwise, committing to Obstacle exactly when the result exceeds the
occupancy threshold 0.7; Free takes `min(current, 1-incoming)` on Obstacle
cells and the max otherwise, committing to Free exactly when the result
exceeds the free threshold 0.3; any other classification overwrites both
fields directly. -/
theorem updateMapCell_refines_spec (cfg : MapConfig) (g : Grid) (x y : ℤ)
    (incoming : MapCellType) (confidence : ℚ) (t : ℕ)
    (h : inBounds cfg (x, y)) :
    ((SLAM.updateMapCell cfg g x y incoming confidence t) (x, y)).type
        = (specCellUpdate incoming confidence (g (x, y))).1
      ∧ ((SLAM.updateMapCell cfg g x y incoming confidence t) (x, y)).confidence
        = (specCellUpdate incoming confidence (g (x, y))).2 := by
  unfold SLAM.updateMapCell setCell
  rw [if_pos h]
  simp only [if_pos rfl]
  cases incoming <;>
    simp [SLAM.applyCellUpdate, specCellUpdate, gt_iff_lt]

/-- Witness for C1: a concrete in-bounds Obstacle update on a Free cell of
confidence 0.6 blends to 0.7, which does not exceed the threshold, so the
cell stays Free. -/
theorem updateMapCell_refines_spec_witness :
    ((SLAM.updateMapCell defaultConfig
        (setCell initGrid (3, 4) ⟨.FREE, 3/5, 0, false⟩)
        3 4 .OBSTACLE (4/5) 9) (3, 4)).type
      = (specCellUpdate .OBSTACLE (4/5)
          ((setCell initGrid (3, 4) ⟨.FREE, 3/5, 0, false⟩) (3, 4))).1 :=
  (updateMapCell_refines_spec defaultConfig
      (setCell initGrid (3, 4) ⟨.FREE, 3/5, 0, false⟩)
      3 4 .OBSTACLE (4/5) 9 (by decide)).1

/-- Truncation toward zero is the identity on integers. -/
theorem ratTrunc_intCast (n : ℤ) : ratTrunc (n : ℚ) = n := by
  unfold ratTrunc
  split <;> simp

/-- CLAIM C7.  For all in-bounds grid coordinates, `mapToWorld` followed by
`worldToMap` returns exactly the same coordinates (the transforms are
inverse affine maps up to sub-cell truncation); the positive cell size of
the configuration is what makes the division cancel. -/
theorem worldToMap_mapToWorld (cfg : MapConfig) (gx gy : ℤ)
    (hcs : 0 < cfg.cellSize)
    (_hx0 : 0 ≤ gx) (_hx1 : gx < (cfg.mapWidth : ℤ))
    (_hy0 : 0 ≤ gy) (_hy1 : gy < (cfg.mapHeight : ℤ)) :
    SLAM.worldToMap cfg (SLAM.mapToWorld cfg gx gy).1
      (SLAM.mapToWorld cfg gx gy).2 = (gx, gy) := by
  have hne : cfg.cellSize ≠ 0 := ne_of_gt hcs
  unfold SLAM.worldToMap SLAM.mapToWorld
  have ex : ((gx : ℚ) * cfg.cellSize - cfg.originX + cfg.originX) / cfg.cellSize
      = (gx : ℚ) := by
    field_simp
  have ey : ((gy : ℚ) * cfg.cellSize - cfg.originY + cfg.originY) / cfg.cellSize
      = (gy : ℚ) := by
    field_simp
  simp only [ex, ey, ratTrunc_intCast]

/-- Witness for C7: the round trip at the in-bounds coordinates (3, 5) of
the default configuration. -/
theorem worldToMap_mapToWorld_witness :
    SLAM.worldToMap defaultConfig (SLAM.mapToWorld defaultConfig 3 5).1
      (SLAM.mapToWorld defaultConfig 3 5).2 = (3, 5) :=
  worldToMap_mapToWorld defaultConfig 3 5 (by norm_num [defaultConfig])
    (by decide) (by decide) (by decide) (by decide)

/-- A cell untouched by `updateMapCell` is unchanged. -/
theorem updateMapCell_ne (cfg : MapConfig) (g : Grid) (x y : ℤ)
    (incoming : MapCellType) (confidence : ℚ) (t : ℕ) (p : ℤ × ℤ)
    (hp : p ≠ (x, y)) :
    (SLAM.updateMapCell cfg g x y incoming confidence t) p = g p := by
  unfold SLAM.updateMapCell setCell
  split
  · simp [hp]
  · rfl

/-- A Free-classified cell update never produces a new Obstacle
classification at the cell it touches. -/
theorem applyCellUpdate_free_no_new_obstacle (confidence : ℚ) (t : ℕ)
    (cell : MapCell)
    (h : (SLAM.applyCellUpdate .FREE confidence t cell).type = .OBSTACLE) :
    cell.type = .OBSTACLE := by
  have h2 : (if freeThreshold <
      (if cell.type = .OBSTACLE then min cell.confidence (1 - confidence)
       else max cell.confidence confidence)
      then MapCellType.FREE else cell.type) = .OBSTACLE := h
  by_cases hlt : freeThreshold <
      (if cell.type = .OBSTACLE then min cell.confidence (1 - confidence)
       else max cell.confidence confidence)
  · rw [if_pos hlt] at h2
    exact absurd h2 (by decide)
  · rwa [if_neg hlt] at h2

/-- A Free-classified update never produces a new Obstacle classification:
if a cell is Obstacle after `updateMapCell(_, _, FREE, _)`, it already was
before. -/
theorem updateMapCell_free_no_new_obstacle (cfg : MapConfig) (g : Grid)
    (x y : ℤ) (confidence : ℚ) (t : ℕ) (p : ℤ × ℤ)
    (h : ((SLAM.updateMapCell cfg g x y .FREE confidence t) p).type
        = .OBSTACLE) :
    (g p).type = .OBSTACLE := by
  by_cases hp : p = (x, y)
  · subst hp
    unfold SLAM.updateMapCell setCell at h
    by_cases hb : inBounds cfg (x, y)
    · rw [if_pos hb, if_pos rfl] at h
      exact applyCellUpdate_free_no_new_obstacle confidence t _ h
    · rwa [if_neg hb] at h
  · rwa [updateMapCell_ne cfg g x y .FREE confidence t p hp] at h

/-- The ray-clearing walk of `updateFreeSpace` never produces a new
Obstacle classification anywhere. -/
theorem updateFreeSpace_no_new_obstacle (cfg : MapConfig) (g : Grid)
    (carX carY c s d : ℚ) (t : ℕ) (p : ℤ × ℤ)
    (h : ((SLAM.updateFreeSpace cfg g carX carY c s d t) p).type
        = .OBSTACLE) :
    (g p).type = .OBSTACLE := by
  have hstep : ∀ (gg : Grid) (i : ℕ),
      ((SLAM.freeSpaceStep cfg carX carY c s t gg i) p).type = .OBSTACLE →
      (gg p).type = .OBSTACLE := by
    intro gg i hi
    unfold SLAM.freeSpaceStep at hi
    split at hi
    · exact updateMapCell_free_no_new_obstacle cfg gg _ _ _ _ p hi
    · exact hi
  unfold SLAM.updateFreeSpace at h
  generalize (List.range (ratTrunc (d / (cfg.cellSize / 2))).toNat).drop 1 = l at h
  induction l generalizing g with
  | nil => exact h
  | cons i tl ih =>
    rw [List.foldl_cons] at h
    exact hstep g i (ih _ h)

/-- CLAIM C4 (amended).  Integrating a single in-range beam never newly
classifies any cell other than the ray's endpoint cell as Obstacle: every
cell distinct from the endpoint cell that holds Obstacle after
`updateOccupancyGrid` already held Obstacle before.  (The original claim —
that no intermediate cell can even remain Obstacle — fails for an
intermediate cell whose prior confidence is at or below the free threshold;
see the counterexample.) -/
theorem updateOccupancyGrid_no_new_obstacle (cfg : MapConfig) (g : Grid)
    (carX carY c s d : ℚ) (t : ℕ) (p : ℤ × ℤ)
    (_hrange : cfg.minRange < d ∧ d < cfg.maxRange)
    (hp : p ≠ SLAM.worldToMap cfg (carX + d * c) (carY + d * s))
    (h : ((SLAM.updateOccupancyGrid cfg g carX carY c s d t) p).type
        = .OBSTACLE) :
    (g p).type = .OBSTACLE := by
  have hob : (SLAM.updateObstacle cfg g carX carY c s d t) p = g p := by
    unfold SLAM.updateObstacle
    split
    · exact updateMapCell_ne cfg g _ _ .OBSTACLE (4/5) t p hp
    · rfl
  unfold SLAM.updateOccupancyGrid at h
  split at h
  · have h2 := updateFreeSpace_no_new_obstacle cfg _ carX carY c s d t p h
    rwa [hob] at h2
  · exact h

/-- Value of a ray-walk step at a cell it does not sample. -/
theorem freeSpaceStep_at_ne (cfg : MapConfig) (carX carY c s : ℚ) (t : ℕ)
    (acc : Grid) (i : ℕ) (p : ℤ × ℤ)
    (hp : p ≠ SLAM.worldToMap cfg (carX + (i : ℚ) * (cfg.cellSize / 2) * c)
      (carY + (i : ℚ) * (cfg.cellSize / 2) * s)) :
    (SLAM.freeSpaceStep cfg carX carY c s t acc i) p = acc p := by
  unfold SLAM.freeSpaceStep
  split
  · exact updateMapCell_ne cfg acc _ _ .FREE (3/5) t p hp
  · rfl

/-- Value of a ray-walk step at the in-bounds cell it samples. -/
theorem freeSpaceStep_at_eq (cfg : MapConfig) (carX carY c s : ℚ) (t : ℕ)
    (acc : Grid) (i : ℕ) (p : ℤ × ℤ)
    (hp : SLAM.worldToMap cfg (carX + (i : ℚ) * (cfg.cellSize / 2) * c)
      (carY + (i : ℚ) * (cfg.cellSize / 2) * s) = p)
    (hb : inBounds cfg p) :
    (SLAM.freeSpaceStep cfg carX carY c s t acc i) p
      = SLAM.applyCellUpdate .FREE (3/5) t (acc p) := by
  subst hp
  simp only [SLAM.freeSpaceStep, SLAM.updateMapCell, setCell, Prod.mk.eta]
  rw [if_pos hb, if_pos hb]
  simp [setCell]

/-- Evaluation of the C4 scenario: default configuration, car at the world
origin, axis-aligned beam of 0.3 m, prior grid whose only Obstacle is the
intermediate cell (101, 100) at confidence 0.2; after the integration that
cell is still classified Obstacle. -/
theorem c4_beam_eval :
    ((SLAM.updateOccupancyGrid defaultConfig
        (setCell initGrid (101, 100) ⟨.OBSTACLE, 1/5, 0, false⟩)
        0 0 1 0 (3/10) 5) ((101 : ℤ), (100 : ℤ))).type = .OBSTACLE := by
  have hmpE : SLAM.worldToMap defaultConfig (0 + (3/10 : ℚ) * 1)
      (0 + (3/10 : ℚ) * 0) = ((103 : ℤ), (100 : ℤ)) := by
    norm_num [SLAM.worldToMap, ratTrunc, defaultConfig, Prod.ext_iff]
  have hbE : inBounds defaultConfig
      (SLAM.worldToMap defaultConfig (0 + (3/10 : ℚ) * 1)
        (0 + (3/10 : ℚ) * 0)) := by
    rw [hmpE]
    decide
  have hlist : (List.range
      (ratTrunc ((3/10 : ℚ) / (defaultConfig.cellSize / 2))).toNat).drop 1
      = [1, 2, 3, 4, 5] := by
    have h6 : ratTrunc ((3/10 : ℚ) / (defaultConfig.cellSize / 2)) = 6 := by
      norm_num [ratTrunc, defaultConfig]
    rw [h6]
    decide
  have hG0 : (SLAM.updateObstacle defaultConfig
      (setCell initGrid (101, 100) ⟨.OBSTACLE, 1/5, 0, false⟩)
      0 0 1 0 (3/10) 5) ((101 : ℤ), (100 : ℤ))
      = ⟨.OBSTACLE, 1/5, 0, false⟩ := by
    simp only [SLAM.updateObstacle, hmpE]
    rw [if_pos (show inBounds defaultConfig ((103 : ℤ), (100 : ℤ)) by decide)]
    rw [updateMapCell_ne defaultConfig _ _ _ .OBSTACLE (4/5) 5 _ (by decide)]
    simp [setCell]
  simp only [SLAM.updateOccupancyGrid, SLAM.updateFreeSpace]
  rw [if_pos hbE, hlist]
  simp only [List.foldl_cons, List.foldl_nil]
  rw [freeSpaceStep_at_ne defaultConfig 0 0 1 0 5 _ 5 _
      (by norm_num [SLAM.worldToMap, ratTrunc, defaultConfig, Prod.ext_iff]),
    freeSpaceStep_at_ne defaultConfig 0 0 1 0 5 _ 4 _
      (by norm_num [SLAM.worldToMap, ratTrunc, defaultConfig, Prod.ext_iff]),
    freeSpaceStep_at_eq defaultConfig 0 0 1 0 5 _ 3 _
      (by norm_num [SLAM.worldToMap, ratTrunc, defaultConfig, Prod.ext_iff])
      (by decide),
    freeSpaceStep_at_eq defaultConfig 0 0 1 0 5 _ 2 _
      (by norm_num [SLAM.worldToMap, ratTrunc, defaultConfig, Prod.ext_iff])
      (by decide),
    freeSpaceStep_at_ne defaultConfig 0 0 1 0 5 _ 1 _
      (by norm_num [SLAM.worldToMap, ratTrunc, defaultConfig, Prod.ext_iff]),
    hG0]
  have happ : SLAM.applyCellUpdate .FREE (3/5) 5 ⟨.OBSTACLE, 1/5, 0, false⟩
      = ⟨.OBSTACLE, 1/5, 5, false⟩ := by
    unfold SLAM.applyCellUpdate
    rw [if_neg (by decide), if_pos rfl]
    norm_num [freeThreshold, min_def]
  have happ2 : SLAM.applyCellUpdate .FREE (3/5) 5 ⟨.OBSTACLE, 1/5, 5, false⟩
      = ⟨.OBSTACLE, 1/5, 5, false⟩ := by
    unfold SLAM.applyCellUpdate
    rw [if_neg (by decide), if_pos rfl]
    norm_num [freeThreshold, min_def]
  rw [happ, happ2]

/-- Witness for C4's amended theorem: with the default configuration, a car
at the origin and an axis-aligned 0.3 m beam, the cell (101, 100) lies
strictly between the car cell (100, 100) and the endpoint cell (103, 100);
starting from a grid whose only Obstacle is that intermediate cell, the
theorem recovers that it was an Obstacle before the integration. -/
theorem updateOccupancyGrid_no_new_obstacle_witness :
    ((setCell initGrid (101, 100) ⟨.OBSTACLE, 1/5, 0, false⟩)
      ((101 : ℤ), (100 : ℤ))).type = .OBSTACLE :=
  updateOccupancyGrid_no_new_obstacle defaultConfig
    (setCell initGrid (101, 100) ⟨.OBSTACLE, 1/5, 0, false⟩)
    0 0 1 0 (3/10) 5 (101, 100) (by norm_num [defaultConfig])
    (by norm_num [SLAM.worldToMap, defaultConfig, ratTrunc, Prod.ext_iff])
    c4_beam_eval

/-- Counterexample for CLAIM C4 as stated.  Default configuration, car at
the world origin (grid cell (100, 100)), axis-aligned beam of d = 0.3 m
with minRange < d < maxRange, endpoint cell (103, 100).  The intermediate
cell (101, 100) starts as Obstacle with confidence 0.2; the Free updates of
the ray walk erode via `min(0.2, 0.4) = 0.2`, which does not exceed the
free threshold 0.3, so after the integration the intermediate cell is still
classified Obstacle — contradicting "only the endpoint cell may hold
classification Obstacle, for every prior state of the intermediate
cells". -/
theorem updateOccupancyGrid_intermediate_obstacle_remains :
    (defaultConfig.minRange < 3/10 ∧ (3/10 : ℚ) < defaultConfig.maxRange)
    ∧ SLAM.worldToMap defaultConfig 0 0 = (100, 100)
    ∧ SLAM.worldToMap defaultConfig (0 + (3/10) * 1) (0 + (3/10) * 0)
        = (103, 100)
    ∧ ((SLAM.updateOccupancyGrid defaultConfig
          (setCell initGrid (101, 100) ⟨.OBSTACLE, 1/5, 0, false⟩)
          0 0 1 0 (3/10) 5) ((101 : ℤ), (100 : ℤ))).type = .OBSTACLE := by
  refine ⟨by norm_num [defaultConfig], ?_, ?_, c4_beam_eval⟩
  · norm_num [SLAM.worldToMap, defaultConfig, ratTrunc, Prod.ext_iff]
  · norm_num [SLAM.worldToMap, defaultConfig, ratTrunc, Prod.ext_iff]

/-- Evaluation of an Obstacle-classified cell update on a cell that is not
Free, when the blended confidence clears the occupancy threshold. -/
theorem applyCellUpdate_obstacle_eval (confidence : ℚ) (t : ℕ)
    (cell : MapCell) (hft : cell.type ≠ .FREE)
    (hth : occupancyThreshold < max cell.confidence confidence) :
    SLAM.applyCellUpdate .OBSTACLE confidence t cell
      = ⟨.OBSTACLE, max cell.confidence confidence, t, cell.visited⟩ := by
  simp only [SLAM.applyCellUpdate]
  rw [if_pos trivial, if_neg hft, if_pos hth]

/-- Value of `updateMapCell` at the in-bounds cell it targets. -/
theorem updateMapCell_at_eq (cfg : MapConfig) (g : Grid) (x y : ℤ)
    (incoming : MapCellType) (confidence : ℚ) (t : ℕ)
    (hb : inBounds cfg (x, y)) :
    (SLAM.updateMapCell cfg g x y incoming confidence t) (x, y)
      = SLAM.applyCellUpdate incoming confidence t (g (x, y)) := by
  unfold SLAM.updateMapCell setCell
  rw [if_pos hb, if_pos rfl]

/-- Value of `updateObstacle` at the in-bounds endpoint cell. -/
theorem updateObstacle_at_eq (cfg : MapConfig) (g : Grid)
    (carX carY c s d : ℚ) (t : ℕ) (p : ℤ × ℤ)
    (hp : SLAM.worldToMap cfg (carX + d * c) (carY + d * s) = p)
    (hb : inBounds cfg p) :
    (SLAM.updateObstacle cfg g carX carY c s d t) p
      = SLAM.applyCellUpdate .OBSTACLE (4/5) t (g p) := by
  subst hp
  simp only [SLAM.updateObstacle, SLAM.updateMapCell, setCell, Prod.mk.eta]
  rw [if_pos hb, if_pos hb]
  simp [setCell]

/-- When the truncated step count is at most one, the ray walk of
`updateFreeSpace` has an empty loop and changes nothing. -/
theorem updateFreeSpace_short (cfg : MapConfig) (g : Grid)
    (carX carY c s d : ℚ) (t : ℕ)
    (h : (ratTrunc (d / (cfg.cellSize / 2))).toNat ≤ 1) :
    SLAM.updateFreeSpace cfg g carX carY c s d t = g := by
  have hnil : (List.range (ratTrunc (d / (cfg.cellSize / 2))).toNat).drop 1
      = ([] : List ℕ) := by
    rcases Nat.le_one_iff_eq_zero_or_eq_one.mp h with h0 | h1
    · rw [h0]
      rfl
    · rw [h1]
      rfl
  simp only [SLAM.updateFreeSpace]
  rw [hnil]
  rfl

/-- CLAIM C3 (amended).  A sensor beam is discarded — the grid is returned
unchanged and no error is raised — whenever its reading falls outside the
acceptance interval the firmware actually checks for that beam: the
ultrasonic beam requires `minRange < d < maxRange`, while the three IR
beams require only `0 < d < maxRange`.  (The original claim — that every
beam with `d` outside `[minRange, maxRange]` is discarded — fails for an IR
reading strictly between 0 and `minRange`; see the counterexample.) -/
theorem sensor_reading_discarded (cfg : MapConfig) (g : Grid)
    (carX carY c s d : ℚ) (t : ℕ) :
    (¬(cfg.minRange < d ∧ d < cfg.maxRange) →
      SLAM.integrateUltrasonicReading cfg g carX carY c s d t = g)
    ∧ (¬(0 < d ∧ d < cfg.maxRange) →
      SLAM.integrateIRReading cfg g carX carY c s d t = g) := by
  refine ⟨fun h => ?_, fun h => ?_⟩
  · unfold SLAM.integrateUltrasonicReading
    exact if_neg h
  · unfold SLAM.integrateIRReading
    exact if_neg h

/-- Witness for C3's amended theorem: an out-of-range reading of 10 m is
discarded by both the ultrasonic and the IR branch. -/
theorem sensor_reading_discarded_witness :
    SLAM.integrateUltrasonicReading defaultConfig initGrid 0 0 1 0 10 3
      = initGrid
    ∧ SLAM.integrateIRReading defaultConfig initGrid 0 0 1 0 10 3
      = initGrid :=
  ⟨(sensor_reading_discarded defaultConfig initGrid 0 0 1 0 10 3).1
      (by norm_num [defaultConfig]),
   (sensor_reading_discarded defaultConfig initGrid 0 0 1 0 10 3).2
      (by norm_num [defaultConfig])⟩

/-- Counterexample for CLAIM C3 as stated.  The IR-center beam reading
d = 0.04 m lies outside [minRange, maxRange] = [0.05, 4] (it is below the
minimum), yet `processSensorData` integrates it: starting from a fresh
grid, the cell (100, 100) ends classified Obstacle, whereas the identical
run with that beam absent (reading 0) leaves it Unknown.  So a reading
below `minRange` does change grid state, contradicting the claim. -/
theorem ir_below_minRange_updates_cell :
    ((0 : ℚ) < 1/25 ∧ (1/25 : ℚ) < defaultConfig.minRange)
    ∧ ((SLAM.processSensorData defaultConfig initGrid 0 0
          1 0 1 0 1 0 1 0 0 0 (1/25) 0 9) ((100 : ℤ), (100 : ℤ))).type
        = .OBSTACLE
    ∧ ((SLAM.processSensorData defaultConfig initGrid 0 0
          1 0 1 0 1 0 1 0 0 0 0 0 9) ((100 : ℤ), (100 : ℤ))).type
        = .UNKNOWN := by
  have hU : SLAM.integrateUltrasonicReading defaultConfig initGrid 0 0 1 0 0 9
      = initGrid := by
    unfold SLAM.integrateUltrasonicReading
    exact if_neg (by norm_num [defaultConfig])
  have hIR0 : ∀ (gg : Grid) (c s : ℚ),
      SLAM.integrateIRReading defaultConfig gg 0 0 c s 0 9 = gg := by
    intro gg c s
    unfold SLAM.integrateIRReading
    exact if_neg (by norm_num)
  have hmp : SLAM.worldToMap defaultConfig (0 + (1/25 : ℚ) * 1)
      (0 + (1/25 : ℚ) * 0) = ((100 : ℤ), (100 : ℤ)) := by
    norm_num [SLAM.worldToMap, ratTrunc, defaultConfig, Prod.ext_iff]
  have hOccAt : (SLAM.updateOccupancyGrid defaultConfig initGrid 0 0 1 0
      (1/25) 9) ((100 : ℤ), (100 : ℤ)) = ⟨.OBSTACLE, 4/5, 9, false⟩ := by
    have hb : inBounds defaultConfig
        (SLAM.worldToMap defaultConfig (0 + (1/25 : ℚ) * 1)
          (0 + (1/25 : ℚ) * 0)) := by
      rw [hmp]
      decide
    simp only [SLAM.updateOccupancyGrid]
    rw [if_pos hb,
      updateFreeSpace_short defaultConfig _ 0 0 1 0 (1/25) 9
        (by norm_num [ratTrunc, defaultConfig]),
      updateObstacle_at_eq defaultConfig initGrid 0 0 1 0 (1/25) 9
        ((100 : ℤ), (100 : ℤ)) hmp (by decide),
      show initGrid ((100 : ℤ), (100 : ℤ)) = initialCell from rfl,
      applyCellUpdate_obstacle_eval (4/5) 9 initialCell (by decide)
        (by norm_num [initialCell, occupancyThreshold, max_def])]
    norm_num [initialCell, max_def]
  have hC : SLAM.integrateIRReading defaultConfig initGrid 0 0 1 0 (1/25) 9
      = SLAM.updateOccupancyGrid defaultConfig initGrid 0 0 1 0 (1/25) 9 := by
    unfold SLAM.integrateIRReading
    exact if_pos (by norm_num [defaultConfig])
  have hmpCar : SLAM.worldToMap defaultConfig 0 0 = ((100 : ℤ), (100 : ℤ)) := by
    norm_num [SLAM.worldToMap, ratTrunc, defaultConfig, Prod.ext_iff]
  refine ⟨by norm_num [defaultConfig], ?_, ?_⟩
  · simp only [SLAM.processSensorData, hU, hIR0, hC, hmpCar]
    rw [if_pos (by decide : inBounds defaultConfig ((100 : ℤ), (100 : ℤ)))]
    simp [setCell]
    norm_num [hOccAt]
  · simp only [SLAM.processSensorData, hU, hIR0, hmpCar]
    rw [if_pos (by decide : inBounds defaultConfig ((100 : ℤ), (100 : ℤ)))]
    simp [setCell, initGrid, initialCell]

/-- CLAIM C10.  For an in-range reading whose projected endpoint cell falls
outside the grid bounds, the integration step performs no cell updates at
all: the returned grid is the input grid, so in particular no intermediate
in-bounds cell along the ray is marked Free either. -/
theorem updateOccupancyGrid_endpoint_oob (cfg : MapConfig) (g : Grid)
    (carX carY c s d : ℚ) (t : ℕ)
    (_hrange : cfg.minRange < d ∧ d < cfg.maxRange)
    (hout : ¬ inBounds cfg
      (SLAM.worldToMap cfg (carX + d * c) (carY + d * s))) :
    SLAM.updateOccupancyGrid cfg g carX carY c s d t = g := by
  unfold SLAM.updateOccupancyGrid
  exact if_neg hout

/-- Witness for C10: car at world x = 9 m, beam of 1.5 m along the x axis;
the endpoint (10.5, 0) projects to grid column 205, outside the 200-wide
default grid, and the whole integration leaves the grid untouched even
though the cells between the car and the boundary are in bounds. -/
theorem updateOccupancyGrid_endpoint_oob_witness :
    SLAM.updateOccupancyGrid defaultConfig initGrid 9 0 1 0 (3/2) 7
      = initGrid :=
  updateOccupancyGrid_endpoint_oob defaultConfig initGrid 9 0 1 0 (3/2) 7
    (by norm_num [defaultConfig])
    (by
      rw [show SLAM.worldToMap defaultConfig (9 + (3/2 : ℚ) * 1)
          (0 + (3/2 : ℚ) * 0) = ((205 : ℤ), (100 : ℤ)) from by
        norm_num [SLAM.worldToMap, ratTrunc, defaultConfig, Prod.ext_iff]]
      decide)

/-- The state committed by `setState` is the requested one (also when the
request equals the current state and the call is a no-op). -/
theorem setState_currentState (s : Auto.ArbiterState)
    (st : Auto.NavigationState) (t : ℕ) :
    (Auto.setState s st t).currentState = st := by
  unfold Auto.setState
  split
  next h => exact h.symm
  next h => rfl

/-- CLAIM C6.  Whenever the obstacle condition holds, the obstacle-priority
rule selects exactly the state the specification's decision table gives:
center triggered with ranger distance < 15 cm selects Backward; center
triggered with distance ≥ 15 cm selects AvoidLeft on a right-only side
trigger, AvoidRight on a left-only side trigger, and Backward when both or
neither side is triggered; with center clear, left-only selects AvoidRight
and right-only selects AvoidLeft. -/
theorem avoidObstacles_priority (s : Auto.ArbiterState)
    (left center right : Bool) (t : ℕ)
    (hdet : s.obstacleDetected = true) :
    (center = true → s.obstacleDistance < 15 →
      (Auto.avoidObstacles s left center right t).currentState
        = .NAV_BACKWARD)
    ∧ (center = true → ¬ s.obstacleDistance < 15 →
        left = false → right = true →
      (Auto.avoidObstacles s left center right t).currentState
        = .NAV_AVOID_LEFT)
    ∧ (center = true → ¬ s.obstacleDistance < 15 →
        left = true → right = false →
      (Auto.avoidObstacles s left center right t).currentState
        = .NAV_AVOID_RIGHT)
    ∧ (center = true → ¬ s.obstacleDistance < 15 → left = right →
      (Auto.avoidObstacles s left center right t).currentState
        = .NAV_BACKWARD)
    ∧ (center = false → left = true → right = false →
      (Auto.avoidObstacles s left center right t).currentState
        = .NAV_AVOID_RIGHT)
    ∧ (center = false → left = false → right = true →
      (Auto.avoidObstacles s left center right t).currentState
        = .NAV_AVOID_LEFT) := by
  refine ⟨fun hC h15 => ?_, fun hC h15 hL hR => ?_, fun hC h15 hL hR => ?_,
    fun hC h15 hLR => ?_, fun hC hL hR => ?_, fun hC hL hR => ?_⟩
  · simp [Auto.avoidObstacles, hdet, hC, h15, setState_currentState]
  · simp [Auto.avoidObstacles, hdet, hC, h15, hL, hR, setState_currentState]
  · simp [Auto.avoidObstacles, hdet, hC, h15, hL, hR, setState_currentState]
  · cases left <;> cases right <;>
      simp_all [Auto.avoidObstacles, setState_currentState]
  · simp [Auto.avoidObstacles, hdet, hC, hL, hR, setState_currentState]
  · simp [Auto.avoidObstacles, hdet, hC, hL, hR, setState_currentState]

/-- Witness for C6: with an obstacle at 10 cm and the center sensor
triggered, the rule commits Backward. -/
theorem avoidObstacles_priority_witness :
    (Auto.avoidObstacles c6State false true false 7).currentState
      = .NAV_BACKWARD :=
  (avoidObstacles_priority c6State false true false 7 rfl).1 rfl
    (by norm_num [c6State])

/-- CLAIM C2 evaluation (code bug).  At t = 20000 ms the obstacle has been
continuously asserted for 11000 ms > maxObstacleTime = 10000 ms, and the
completed tick does raise the alert — but `checkSafety` runs before
`navigate`, whose obstacle handling immediately overrides the just-set Stop
state: the tick commits Backward and issues a backward motor directive, not
the stop the specification promises as a hard ceiling. -/
theorem safety_stop_overridden_by_avoidance :
    Auto.maxObstacleTime < 20000 - c2State.obstacleStartTime
    ∧ (Auto.update c2State false true false 10 20000).2.2 = true
    ∧ (Auto.update c2State false true false 10 20000).1.currentState
        = .NAV_BACKWARD
    ∧ (Auto.update c2State false true false 10 20000).2.1
        = some (.moveBackward Auto.reverseSpeed)
    ∧ (Auto.NavigationState.NAV_BACKWARD ≠ .NAV_STOP) := by
  refine ⟨by norm_num [Auto.maxObstacleTime, c2State], ?_, ?_, ?_, by decide⟩
  all_goals
    norm_num [Auto.update, Auto.updateSensors, Auto.checkSafety,
      Auto.navigate, Auto.processObstacles, Auto.processLineFollowing,
      Auto.avoidObstacles, Auto.followLine, Auto.updateState, Auto.setState,
      Auto.executeState, Auto.updateInterval, Auto.safetyCheckInterval,
      Auto.maxObstacleTime, Auto.stateTimeout, Auto.reverseSpeed, c2State,
      (by decide : Auto.NavigationState.NAV_STOP
        ≠ Auto.NavigationState.NAV_AVOID_LEFT),
      (by decide : Auto.NavigationState.NAV_BACKWARD
        ≠ Auto.NavigationState.NAV_STOP),
      (by decide : Auto.NavigationState.NAV_BACKWARD
        ≠ Auto.NavigationState.NAV_AVOID_LEFT)]

/-- CLAIM C8 (amended).  On a tick with no obstacle condition and line
following disabled, if the current state is Backward, AvoidLeft, or
AvoidRight and has been held longer than the state timeout, the tick
forces a transition back to Forward.  (The original claim — Forward with no
further qualification, in particular the AvoidLeft-for-3100-ms scenario —
fails under the default configuration because line following is enabled
and its lost-line fallback steers to TurnLeft/TurnRight before the timeout
check runs; see the counterexample.) -/
theorem state_timeout_forces_forward (s : Auto.ArbiterState)
    (distance : ℚ) (t : ℕ)
    (hact : s.isActive = true) (hpau : s.isPaused = false)
    (htick : Auto.updateInterval ≤ t - s.lastUpdate)
    (hdist : ¬ distance < 20)
    (hlf : s.lineFollowingEnabled = false)
    (hcur : s.currentState = .NAV_BACKWARD
      ∨ s.currentState = .NAV_AVOID_LEFT
      ∨ s.currentState = .NAV_AVOID_RIGHT)
    (hheld : Auto.stateTimeout < t - s.stateStartTime) :
    (Auto.update s false false false distance t).1.currentState
      = .NAV_FORWARD := by
  have hd : decide (distance < 20) = false := by
    rwa [decide_eq_false_iff_not]
  have h1 : Auto.updateSensors s false false false distance t
      = { s with obstacleDetected := false, obstacleDistance := distance,
                 obstacleStartTime := 0 } := by
    simp [Auto.updateSensors, hd]
  have h4 : ∀ u : Auto.ArbiterState,
      (u.currentState = .NAV_BACKWARD ∨ u.currentState = .NAV_AVOID_LEFT
        ∨ u.currentState = .NAV_AVOID_RIGHT) →
      Auto.stateTimeout < t - u.stateStartTime →
      (Auto.updateState u t).currentState = .NAV_FORWARD := by
    intro u hc hh
    unfold Auto.updateState
    rw [if_pos hh]
    rcases hc with h | h | h
    · rw [if_pos h]
      exact setState_currentState u _ t
    · rw [if_neg (by rw [h]; decide), if_pos (Or.inl h)]
      exact setState_currentState u _ t
    · rw [if_neg (by rw [h]; decide), if_pos (Or.inr h)]
      exact setState_currentState u _ t
  have h3 : ∀ u : Auto.ArbiterState, u.obstacleDetected = false →
      u.lineFollowingEnabled = false →
      (Auto.navigate u false false false t).1 = u := by
    intro u hdet hl
    simp [Auto.navigate, Auto.processObstacles, Auto.processLineFollowing,
      hdet, hl]
  have h2 : ∀ u : Auto.ArbiterState, u.obstacleDetected = false →
      ((if u.safetyEnabled then Auto.checkSafety u t
        else (u, false)).1.currentState = u.currentState
      ∧ (if u.safetyEnabled then Auto.checkSafety u t
          else (u, false)).1.stateStartTime = u.stateStartTime
      ∧ (if u.safetyEnabled then Auto.checkSafety u t
          else (u, false)).1.obstacleDetected = false
      ∧ (if u.safetyEnabled then Auto.checkSafety u t
          else (u, false)).1.lineFollowingEnabled
          = u.lineFollowingEnabled) := by
    intro u hu
    by_cases hse : u.safetyEnabled = true
    · rw [if_pos hse]
      unfold Auto.checkSafety
      split
      · exact ⟨rfl, rfl, hu, rfl⟩
      · rw [if_neg (by simp [hu])]
        exact ⟨rfl, rfl, hu, rfl⟩
    · rw [if_neg hse]
      exact ⟨rfl, rfl, hu, rfl⟩
  have hmain : (Auto.update s false false false distance t).1.currentState
      = (Auto.updateState (Auto.navigate
          (if (Auto.updateSensors s false false false distance
              t).safetyEnabled
           then Auto.checkSafety
             (Auto.updateSensors s false false false distance t) t
           else (Auto.updateSensors s false false false distance t,
             false)).1 false false false t).1 t).currentState := by
    unfold Auto.update
    rw [if_neg (by simp [hact, hpau]), if_neg (Nat.not_lt.mpr htick)]
  obtain ⟨e1, e2, e3, e4⟩ :=
    h2 (Auto.updateSensors s false false false distance t) (by rw [h1])
  rw [hmain, h3 _ e3 (by rw [e4, h1]; exact hlf)]
  exact h4 _ (by rw [e1, h1]; exact hcur) (by rw [e2, h1]; exact hheld)

/-- Witness for C8's amended theorem: the AvoidLeft-since-900-ms fixture
with line following disabled, ticked at 4000 ms (held 3100 ms > 3000 ms),
transitions to Forward. -/
theorem state_timeout_forces_forward_witness :
    (Auto.update c8StateNoLine false false false 100 4000).1.currentState
      = .NAV_FORWARD :=
  state_timeout_forces_forward c8StateNoLine 100 4000 rfl rfl
    (by norm_num [c8StateNoLine, c8State, Auto.updateInterval])
    (by norm_num) rfl (Or.inr (Or.inl rfl))
    (by norm_num [c8StateNoLine, c8State, Auto.stateTimeout])

/-- Counterexample for CLAIM C8 as stated.  The arbiter has been in
AvoidLeft for 3100 ms > stateTimeout = 3000 ms and no obstacle or line
sensor triggers on the tick at t = 4000 ms, yet with the default
line-following-enabled configuration the tick ends in TurnRight, not
Forward: `followLine`'s lost-line fallback (last line position 0 → assume
right) commits TurnRight and resets the state clock before the timeout
check runs. -/
theorem avoidleft_timeout_turns_right :
    c8State.currentState = .NAV_AVOID_LEFT
    ∧ Auto.stateTimeout < 4000 - c8State.stateStartTime
    ∧ (Auto.update c8State false false false 100 4000).1.currentState
        = .NAV_TURN_RIGHT
    ∧ (Auto.NavigationState.NAV_TURN_RIGHT ≠ .NAV_FORWARD) := by
  refine ⟨rfl, by norm_num [Auto.stateTimeout, c8State], ?_, by decide⟩
  have hd : decide ((100 : ℚ) < 20) = false := by
    rw [decide_eq_false_iff_not]
    norm_num
  norm_num [Auto.update, Auto.updateSensors, Auto.checkSafety,
    Auto.navigate, Auto.processObstacles, Auto.processLineFollowing,
    Auto.followLine, Auto.updateState, Auto.setState, Auto.executeState,
    Auto.updateInterval, Auto.safetyCheckInterval, Auto.maxObstacleTime,
    Auto.stateTimeout, c8State, hd,
    (by decide : Auto.NavigationState.NAV_TURN_RIGHT
      ≠ Auto.NavigationState.NAV_AVOID_LEFT)]

/-- Evaluation of an Obstacle-classified cell update on a Free cell: blend
the confidences and commit exactly when the blend clears the occupancy
threshold. -/
theorem applyCellUpdate_obstacle_on_free (q : ℚ) (tc : ℕ) (cell : MapCell)
    (hf : cell.type = .FREE) :
    SLAM.applyCellUpdate .OBSTACLE q tc cell
      = ⟨if occupancyThreshold < (cell.confidence + q) / 2 then .OBSTACLE
         else .FREE, (cell.confidence + q) / 2, tc, cell.visited⟩ := by
  simp only [SLAM.applyCellUpdate]
  rw [if_pos trivial, if_pos hf, hf]

/-- Evaluation of an Obstacle-classified cell update on a non-Free cell:
take the max of the confidences and commit exactly when it clears the
occupancy threshold. -/
theorem applyCellUpdate_obstacle_on_nonfree (q : ℚ) (tc : ℕ)
    (cell : MapCell) (hf : cell.type ≠ .FREE) :
    SLAM.applyCellUpdate .OBSTACLE q tc cell
      = ⟨if occupancyThreshold < max cell.confidence q then .OBSTACLE
         else cell.type, max cell.confidence q, tc, cell.visited⟩ := by
  simp only [SLAM.applyCellUpdate]
  rw [if_pos trivial, if_neg hf]

/-- CLAIM C9 (amended).  For every cell whose confidence lies in [0, 1] and
which, if currently Free, has confidence at most 0.9, repeated
`updateCell(Obstacle, 0.9)` applications yield a confidence sequence that
is monotonically non-decreasing, never exceeds 1.0, and from the fourth
step on is constantly `max(initial confidence, 0.9)` — its limit, which is
0.9 rather than 1.0 for any fresh cell.  (The original claim fails both in
"approaches 1.0" — the limit is max(initial, 0.9) — and in monotonicity
for Free cells of confidence above 0.9, which the code itself can create;
see the counterexample.) -/
theorem repeated_obstacle_update_monotone_bounded (cell : MapCell)
    (tc : ℕ) (h0 : 0 ≤ cell.confidence) (h1 : cell.confidence ≤ 1)
    (hfree : cell.type = .FREE → cell.confidence ≤ 9/10) :
    (∀ n : ℕ,
      ((SLAM.applyCellUpdate .OBSTACLE (9/10) tc)^[n] cell).confidence
        ≤ ((SLAM.applyCellUpdate .OBSTACLE (9/10) tc)^[n+1] cell).confidence)
    ∧ (∀ n : ℕ,
      ((SLAM.applyCellUpdate .OBSTACLE (9/10) tc)^[n] cell).confidence ≤ 1)
    ∧ (∀ n : ℕ,
      ((SLAM.applyCellUpdate .OBSTACLE (9/10) tc)^[n+4] cell).confidence
        = max cell.confidence (9/10)) := by
  have hstep : ∀ c : MapCell, 0 ≤ c.confidence → c.confidence ≤ 1 →
      (c.type = .FREE → c.confidence ≤ 9/10) →
      c.confidence ≤ (SLAM.applyCellUpdate .OBSTACLE (9/10) tc c).confidence
      ∧ 0 ≤ (SLAM.applyCellUpdate .OBSTACLE (9/10) tc c).confidence
      ∧ (SLAM.applyCellUpdate .OBSTACLE (9/10) tc c).confidence ≤ 1
      ∧ ((SLAM.applyCellUpdate .OBSTACLE (9/10) tc c).type = .FREE →
         (SLAM.applyCellUpdate .OBSTACLE (9/10) tc c).confidence ≤ 9/10) := by
    intro c hc0 hc1 hcf
    by_cases hfr : c.type = .FREE
    · have h9 := hcf hfr
      rw [applyCellUpdate_obstacle_on_free (9/10) tc c hfr]
      dsimp only
      exact ⟨by linarith, by linarith, by linarith, fun _ => by linarith⟩
    · rw [applyCellUpdate_obstacle_on_nonfree (9/10) tc c hfr]
      dsimp only
      refine ⟨le_max_left _ _, le_trans hc0 (le_max_left _ _),
        max_le hc1 (by norm_num), fun hty => ?_⟩
      rw [if_pos (lt_of_lt_of_le (by unfold occupancyThreshold; norm_num)
        (le_max_right _ _))] at hty
      exact absurd hty (by decide)
  have hinv : ∀ n : ℕ,
      0 ≤ ((SLAM.applyCellUpdate .OBSTACLE (9/10) tc)^[n] cell).confidence
      ∧ ((SLAM.applyCellUpdate .OBSTACLE (9/10) tc)^[n] cell).confidence ≤ 1
      ∧ (((SLAM.applyCellUpdate .OBSTACLE (9/10) tc)^[n] cell).type = .FREE
        → ((SLAM.applyCellUpdate .OBSTACLE (9/10) tc)^[n] cell).confidence
          ≤ 9/10) := by
    intro n
    induction n with
    | zero => exact ⟨h0, h1, hfree⟩
    | succ n ih =>
      rw [Function.iterate_succ_apply']
      obtain ⟨-, b, c2, d2⟩ := hstep _ ih.1 ih.2.1 ih.2.2
      exact ⟨b, c2, d2⟩
  have hfix : ∀ c : MapCell, c.type = .OBSTACLE → 9/10 ≤ c.confidence →
      c.confidence ≤ 1 → c.timestamp = tc →
      SLAM.applyCellUpdate .OBSTACLE (9/10) tc c = c := by
    intro c hty hge hle hts
    rw [applyCellUpdate_obstacle_on_nonfree (9/10) tc c
      (by rw [hty]; decide)]
    rw [max_eq_left (le_trans (by norm_num) hge),
      if_pos (lt_of_lt_of_le (by unfold occupancyThreshold; norm_num) hge),
      ← hty, ← hts]
  have e0 : (SLAM.applyCellUpdate .OBSTACLE (9/10) tc)^[4] cell
      = SLAM.applyCellUpdate .OBSTACLE (9/10) tc
          (SLAM.applyCellUpdate .OBSTACLE (9/10) tc
            (SLAM.applyCellUpdate .OBSTACLE (9/10) tc
              (SLAM.applyCellUpdate .OBSTACLE (9/10) tc cell))) := rfl
  have h4 : ((SLAM.applyCellUpdate .OBSTACLE (9/10) tc)^[4] cell).type
        = .OBSTACLE
      ∧ ((SLAM.applyCellUpdate .OBSTACLE (9/10) tc)^[4] cell).confidence
        = max cell.confidence (9/10)
      ∧ ((SLAM.applyCellUpdate .OBSTACLE (9/10) tc)^[4] cell).timestamp
        = tc := by
    by_cases hfr : cell.type = .FREE
    · have h9 := hfree hfr
      by_cases hb1 : occupancyThreshold < (cell.confidence + 9/10) / 2
      · have s1 : SLAM.applyCellUpdate .OBSTACLE (9/10) tc cell
            = ⟨.OBSTACLE, (cell.confidence + 9/10) / 2, tc,
               cell.visited⟩ := by
          rw [applyCellUpdate_obstacle_on_free (9/10) tc cell hfr,
            if_pos hb1]
        have s2 : SLAM.applyCellUpdate .OBSTACLE (9/10) tc
            ⟨.OBSTACLE, (cell.confidence + 9/10) / 2, tc, cell.visited⟩
            = ⟨.OBSTACLE, 9/10, tc, cell.visited⟩ := by
          rw [applyCellUpdate_obstacle_on_nonfree (9/10) tc
            ⟨.OBSTACLE, (cell.confidence + 9/10) / 2, tc, cell.visited⟩
            (fun h => MapCellType.noConfusion h)]
          dsimp only
          rw [max_eq_right (by linarith),
            if_pos (by unfold occupancyThreshold; norm_num)]
        have s3 : SLAM.applyCellUpdate .OBSTACLE (9/10) tc
            ⟨.OBSTACLE, 9/10, tc, cell.visited⟩
            = ⟨.OBSTACLE, 9/10, tc, cell.visited⟩ :=
          hfix _ rfl (le_refl _) (by norm_num) rfl
        rw [e0, s1, s2, s3, s3]
        exact ⟨rfl, (max_eq_right h9).symm, rfl⟩
      · have s1 : SLAM.applyCellUpdate .OBSTACLE (9/10) tc cell
            = ⟨.FREE, (cell.confidence + 9/10) / 2, tc, cell.visited⟩ := by
          rw [applyCellUpdate_obstacle_on_free (9/10) tc cell hfr,
            if_neg hb1]
        by_cases hb2 : occupancyThreshold
            < ((cell.confidence + 9/10) / 2 + 9/10) / 2
        · have s2 : SLAM.applyCellUpdate .OBSTACLE (9/10) tc
              ⟨.FREE, (cell.confidence + 9/10) / 2, tc, cell.visited⟩
              = ⟨.OBSTACLE, ((cell.confidence + 9/10) / 2 + 9/10) / 2, tc,
                 cell.visited⟩ := by
            rw [applyCellUpdate_obstacle_on_free (9/10) tc _ rfl]
            dsimp only
            rw [if_pos hb2]
          have s3 : SLAM.applyCellUpdate .OBSTACLE (9/10) tc
              ⟨.OBSTACLE, ((cell.confidence + 9/10) / 2 + 9/10) / 2, tc,
               cell.visited⟩
              = ⟨.OBSTACLE, 9/10, tc, cell.visited⟩ := by
            rw [applyCellUpdate_obstacle_on_nonfree (9/10) tc
              ⟨.OBSTACLE, ((cell.confidence + 9/10) / 2 + 9/10) / 2, tc,
               cell.visited⟩ (fun h => MapCellType.noConfusion h)]
            dsimp only
            rw [max_eq_right (by linarith),
              if_pos (by unfold occupancyThreshold; norm_num)]
          have s4 : SLAM.applyCellUpdate .OBSTACLE (9/10) tc
              ⟨.OBSTACLE, 9/10, tc, cell.visited⟩
              = ⟨.OBSTACLE, 9/10, tc, cell.visited⟩ :=
            hfix _ rfl (le_refl _) (by norm_num) rfl
          rw [e0, s1, s2, s3, s4]
          exact ⟨rfl, (max_eq_right h9).symm, rfl⟩
        · have s2 : SLAM.applyCellUpdate .OBSTACLE (9/10) tc
              ⟨.FREE, (cell.confidence + 9/10) / 2, tc, cell.visited⟩
              = ⟨.FREE, ((cell.confidence + 9/10) / 2 + 9/10) / 2, tc,
                 cell.visited⟩ := by
            rw [applyCellUpdate_obstacle_on_free (9/10) tc _ rfl]
            dsimp only
            rw [if_neg hb2]
          have s3 : SLAM.applyCellUpdate .OBSTACLE (9/10) tc
              ⟨.FREE, ((cell.confidence + 9/10) / 2 + 9/10) / 2, tc,
               cell.visited⟩
              = ⟨.OBSTACLE,
                 (((cell.confidence + 9/10) / 2 + 9/10) / 2 + 9/10) / 2, tc,
                 cell.visited⟩ := by
            rw [applyCellUpdate_obstacle_on_free (9/10) tc _ rfl]
            dsimp only
            rw [if_pos (show occupancyThreshold
                < (((cell.confidence + 9/10) / 2 + 9/10) / 2 + 9/10) / 2 by
              unfold occupancyThreshold
              linarith)]
          have s4 : SLAM.applyCellUpdate .OBSTACLE (9/10) tc
              ⟨.OBSTACLE,
               (((cell.confidence + 9/10) / 2 + 9/10) / 2 + 9/10) / 2, tc,
               cell.visited⟩
              = ⟨.OBSTACLE, 9/10, tc, cell.visited⟩ := by
            rw [applyCellUpdate_obstacle_on_nonfree (9/10) tc
              ⟨.OBSTACLE,
               (((cell.confidence + 9/10) / 2 + 9/10) / 2 + 9/10) / 2, tc,
               cell.visited⟩ (fun h => MapCellType.noConfusion h)]
            dsimp only
            rw [max_eq_right (by linarith),
              if_pos (by unfold occupancyThreshold; norm_num)]
          rw [e0, s1, s2, s3, s4]
          exact ⟨rfl, (max_eq_right h9).symm, rfl⟩
    · have s1 : SLAM.applyCellUpdate .OBSTACLE (9/10) tc cell
          = ⟨.OBSTACLE, max cell.confidence (9/10), tc, cell.visited⟩ := by
        rw [applyCellUpdate_obstacle_on_nonfree (9/10) tc cell hfr,
          if_pos (lt_of_lt_of_le (by unfold occupancyThreshold; norm_num)
            (le_max_right _ _))]
      have hge : (9/10 : ℚ) ≤ max cell.confidence (9/10) := le_max_right _ _
      have hle : max cell.confidence (9/10) ≤ 1 := max_le h1 (by norm_num)
      have s2 : SLAM.applyCellUpdate .OBSTACLE (9/10) tc
          ⟨.OBSTACLE, max cell.confidence (9/10), tc, cell.visited⟩
          = ⟨.OBSTACLE, max cell.confidence (9/10), tc, cell.visited⟩ :=
        hfix _ rfl hge hle rfl
      rw [e0, s1, s2, s2, s2]
      exact ⟨rfl, rfl, rfl⟩
  have hconst : ∀ n : ℕ,
      ((SLAM.applyCellUpdate .OBSTACLE (9/10) tc)^[n+4] cell).type
        = .OBSTACLE
      ∧ ((SLAM.applyCellUpdate .OBSTACLE (9/10) tc)^[n+4] cell).confidence
        = max cell.confidence (9/10)
      ∧ ((SLAM.applyCellUpdate .OBSTACLE (9/10) tc)^[n+4] cell).timestamp
        = tc := by
    intro n
    induction n with
    | zero => exact h4
    | succ n ih =>
      have hn : n + 1 + 4 = (n + 4) + 1 := by omega
      rw [hn, Function.iterate_succ_apply',
        hfix _ ih.1 (ih.2.1.symm ▸ le_max_right cell.confidence (9/10))
          (ih.2.1.symm ▸ max_le h1 (by norm_num)) ih.2.2]
      exact ih
  refine ⟨fun n => ?_, fun n => (hinv n).2.1, fun n => (hconst n).2.1⟩
  rw [Function.iterate_succ_apply']
  exact (hstep _ (hinv n).1 (hinv n).2.1 (hinv n).2.2).1

/-- Counterexample for CLAIM C9 as stated.  The code's own updates can
produce a Free cell with confidence 1 (a CarPosition marker overwritten by
a Free ray update keeps confidence 1).  On that cell the first
`updateCell(Obstacle, 0.9)` blends (1 + 0.9)/2 = 0.95 < 1, so the
confidence sequence decreases at its first step — not monotonically
non-decreasing — and is then constant at 0.95, hence never approaches
1.0. -/
theorem obstacle_update_not_monotone_on_saturated_free :
    SLAM.applyCellUpdate .FREE (3/5) 0 ⟨.CAR_POSITION, 1, 0, false⟩
      = ⟨.FREE, 1, 0, false⟩
    ∧ ((SLAM.applyCellUpdate .OBSTACLE (9/10) 0)^[1]
        ⟨.FREE, 1, 0, false⟩).confidence
      < ((SLAM.applyCellUpdate .OBSTACLE (9/10) 0)^[0]
        ⟨.FREE, 1, 0, false⟩).confidence
    ∧ SLAM.applyCellUpdate .OBSTACLE (9/10) 0
        (SLAM.applyCellUpdate .OBSTACLE (9/10) 0 ⟨.FREE, 1, 0, false⟩)
      = SLAM.applyCellUpdate .OBSTACLE (9/10) 0 ⟨.FREE, 1, 0, false⟩
    ∧ (SLAM.applyCellUpdate .OBSTACLE (9/10) 0
        ⟨.FREE, 1, 0, false⟩).confidence = 19/20
    ∧ (19/20 : ℚ) ≠ 1 := by
  have hB : SLAM.applyCellUpdate .OBSTACLE (9/10) 0 ⟨.FREE, 1, 0, false⟩
      = ⟨.OBSTACLE, 19/20, 0, false⟩ := by
    rw [applyCellUpdate_obstacle_on_free (9/10) 0 _ rfl]
    dsimp only
    norm_num [occupancyThreshold]
  have hC : SLAM.applyCellUpdate .OBSTACLE (9/10) 0
      ⟨.OBSTACLE, 19/20, 0, false⟩ = ⟨.OBSTACLE, 19/20, 0, false⟩ := by
    rw [applyCellUpdate_obstacle_on_nonfree (9/10) 0 _ (by decide)]
    dsimp only
    norm_num [occupancyThreshold, max_def]
  have hA : SLAM.applyCellUpdate .FREE (3/5) 0 ⟨.CAR_POSITION, 1, 0, false⟩
      = ⟨.FREE, 1, 0, false⟩ := by
    simp only [SLAM.applyCellUpdate]
    norm_num [freeThreshold, max_def,
      (by decide : ¬(MapCellType.FREE = MapCellType.OBSTACLE)),
      (by decide : ¬(MapCellType.CAR_POSITION = MapCellType.OBSTACLE)),
      (by decide : ¬(MapCellType.CAR_POSITION = MapCellType.FREE))]
  refine ⟨hA, ?_, ?_, ?_, by norm_num⟩
  · show (SLAM.applyCellUpdate .OBSTACLE (9/10) 0
        ⟨.FREE, 1, 0, false⟩).confidence
      < ((⟨.FREE, 1, 0, false⟩ : MapCell)).confidence
    rw [hB]
    norm_num
  · rw [hB]
    exact hC
  · rw [hB]

/-- Every entry of a serialized row carries the row's y coordinate. -/
theorem cellRow_mem_cy (g : Grid) (w y : ℕ) :
    ∀ e ∈ cellRow g w y, e.cy = y := by
  intro e he
  unfold cellRow at he
  rw [List.mem_filterMap] at he
  obtain ⟨x, _, hfx⟩ := he
  split at hfx
  · simp only [Option.some.injEq] at hfx
    subst hfx
    rfl
  · exact absurd hfx (by simp)

/-- Every entry of a serialized row carries an x coordinate below the
width. -/
theorem cellRow_mem_cx (g : Grid) (w y : ℕ) :
    ∀ e ∈ cellRow g w y, e.cx < w := by
  intro e he
  unfold cellRow at he
  rw [List.mem_filterMap] at he
  obtain ⟨x, hxr, hfx⟩ := he
  rw [List.mem_range] at hxr
  split at hfx
  · simp only [Option.some.injEq] at hfx
    subst hfx
    exact hxr
  · exact absurd hfx (by simp)

/-- A row for a different y holds no entry for (x0, y0). -/
theorem cellRow_find_ne (g : Grid) (w y x0 y0 : ℕ) (hy : y ≠ y0) :
    (cellRow g w y).find? (entryMatches x0 y0) = none := by
  rw [List.find?_eq_none]
  intro e he
  have hcy := cellRow_mem_cy g w y e he
  simp [entryMatches, hcy, hy]

/-- A row of width at most x0 holds no entry for (x0, y0). -/
theorem cellRow_find_ge (g : Grid) (w y0 x0 : ℕ) (hx : w ≤ x0) :
    (cellRow g w y0).find? (entryMatches x0 y0) = none := by
  rw [List.find?_eq_none]
  intro e he
  have hcx := cellRow_mem_cx g w y0 e he
  simp only [entryMatches, Bool.and_eq_true, beq_iff_eq, not_and]
  intro h1
  exact absurd h1 (by omega)

/-- Looking up (x0, y0) in its own serialized row finds exactly the
emitted entry of the grid cell, or nothing when the cell is sparse. -/
theorem cellRow_find_lt (g : Grid) (y0 : ℕ) :
    ∀ w x0 : ℕ, x0 < w →
    (cellRow g w y0).find? (entryMatches x0 y0)
      = if emitCell (g ((x0 : ℤ), (y0 : ℤ))) then
          some ⟨x0, y0, (g ((x0 : ℤ), (y0 : ℤ))).type,
                round2 (g ((x0 : ℤ), (y0 : ℤ))).confidence,
                (g ((x0 : ℤ), (y0 : ℤ))).visited,
                (g ((x0 : ℤ), (y0 : ℤ))).timestamp⟩
        else none := by
  intro w
  induction w with
  | zero => exact fun x0 h => absurd h (Nat.not_lt_zero x0)
  | succ w ih =>
    intro x0 hx
    have hsplit : cellRow g (w + 1) y0 = cellRow g w y0 ++
        (if emitCell (g ((w : ℤ), (y0 : ℤ))) then
          [⟨w, y0, (g ((w : ℤ), (y0 : ℤ))).type,
            round2 (g ((w : ℤ), (y0 : ℤ))).confidence,
            (g ((w : ℤ), (y0 : ℤ))).visited,
            (g ((w : ℤ), (y0 : ℤ))).timestamp⟩]
         else []) := by
      unfold cellRow
      rw [List.range_succ, List.filterMap_append]
      by_cases hw : emitCell (g ((w : ℤ), (y0 : ℤ)))
      · simp [List.filterMap_cons, hw]
      · simp [List.filterMap_cons, hw]
    rw [hsplit, List.find?_append]
    rcases Nat.lt_or_ge x0 w with hlt | hge
    · rw [ih x0 hlt]
      by_cases he : emitCell (g ((x0 : ℤ), (y0 : ℤ)))
      · rw [if_pos he]
        rfl
      · rw [if_neg he, Option.none_or]
        have hne : (w == x0) = false := beq_eq_false_iff_ne.mpr (by omega)
        by_cases hw : emitCell (g ((w : ℤ), (y0 : ℤ)))
        · simp [hw, he, List.find?, entryMatches, hne]
        · simp [hw, he]
    · have hxw : x0 = w := by omega
      subst hxw
      rw [cellRow_find_ge g x0 y0 x0 (le_refl x0), Option.none_or]
      by_cases hw : emitCell (g ((x0 : ℤ), (y0 : ℤ)))
      · simp [hw, List.find?, entryMatches]
      · simp [hw]

/-- The rows strictly before y0 hold no entry for (x0, y0). -/
theorem cellBlock_find_none (g : Grid) (w x0 y0 h : ℕ) (hh : h ≤ y0) :
    ((List.range h).flatMap (cellRow g w)).find? (entryMatches x0 y0)
      = none := by
  rw [List.find?_eq_none]
  intro e he
  rw [List.mem_flatMap] at he
  obtain ⟨y, hyr, hey⟩ := he
  rw [List.mem_range] at hyr
  have hcy := cellRow_mem_cy g w y e hey
  simp only [entryMatches, Bool.and_eq_true, beq_iff_eq, not_and, hcy]
  intro _
  omega

/-- Looking up an in-bounds cell in the full serialized cell list finds
exactly its emitted entry, or nothing when the cell is sparse. -/
theorem cellEntries_find (cfg : MapConfig) (g : Grid) (x0 y0 : ℕ)
    (hx : x0 < cfg.mapWidth) (hy : y0 < cfg.mapHeight) :
    (cellEntries cfg g).find? (entryMatches x0 y0)
      = if emitCell (g ((x0 : ℤ), (y0 : ℤ))) then
          some ⟨x0, y0, (g ((x0 : ℤ), (y0 : ℤ))).type,
                round2 (g ((x0 : ℤ), (y0 : ℤ))).confidence,
                (g ((x0 : ℤ), (y0 : ℤ))).visited,
                (g ((x0 : ℤ), (y0 : ℤ))).timestamp⟩
        else none := by
  unfold cellEntries
  generalize hh : cfg.mapHeight = h at hy
  clear hh
  induction h with
  | zero => exact absurd hy (Nat.not_lt_zero y0)
  | succ h ih =>
    rw [List.range_succ, List.flatMap_append, List.find?_append]
    rcases Nat.lt_or_ge y0 h with hlt | hge
    · rw [ih hlt]
      by_cases he : emitCell (g ((x0 : ℤ), (y0 : ℤ)))
      · rw [if_pos he]
        rfl
      · rw [if_neg he, Option.none_or]
        have hrow := cellRow_find_ne g cfg.mapWidth h x0 y0 (by omega)
        simpa using hrow
    · have hyh : y0 = h := by omega
      subst hyh
      rw [cellBlock_find_none g cfg.mapWidth x0 y0 y0 (le_refl y0),
        Option.none_or]
      have hrow := cellRow_find_lt g y0 cfg.mapWidth x0 hx
      simpa using hrow

/-- CLAIM C5 (amended).  For every mapper state in which (a) each
in-bounds cell's confidence is exact at the serializer's 2-decimal
precision, (b) each Unknown-and-unvisited cell carries confidence 0 and
timestamp 0 (the sparse-encoding default — both (a) and (b) hold in every
state the mapper's own updates can reach), and (c) every waypoint's
coordinates are exact at the 2-decimal precision, serializing and then
loading reconstructs the map exactly: identical classification,
confidence, visited flag and timestamp for every in-bounds cell, and the
identical waypoint list (by id, coordinates, name, visited flag and
timestamp).  (The original claim fails without (c): waypoint coordinates
are serialized at 2 decimals with no precision hedge in the claim; see the
counterexample.) -/
theorem serialize_load_roundtrip (m : MapperState)
    (hcells : ∀ x y : ℕ, x < m.config.mapWidth → y < m.config.mapHeight →
      round2 (m.grid ((x : ℤ), (y : ℤ))).confidence
        = (m.grid ((x : ℤ), (y : ℤ))).confidence)
    (hsparse : ∀ x y : ℕ, x < m.config.mapWidth → y < m.config.mapHeight →
      (m.grid ((x : ℤ), (y : ℤ))).type = .UNKNOWN →
      (m.grid ((x : ℤ), (y : ℤ))).visited = false →
      (m.grid ((x : ℤ), (y : ℤ))).confidence = 0
        ∧ (m.grid ((x : ℤ), (y : ℤ))).timestamp = 0)
    (hwps : ∀ w ∈ m.waypoints, round2 w.x = w.x ∧ round2 w.y = w.y) :
    (∀ x y : ℕ, x < m.config.mapWidth → y < m.config.mapHeight →
      loadCells (generateMapXML m) ((x : ℤ), (y : ℤ))
        = m.grid ((x : ℤ), (y : ℤ)))
    ∧ loadWaypoints (generateMapXML m) = m.waypoints := by
  constructor
  · intro x y hx hy
    unfold loadCells
    rw [if_pos ⟨Int.natCast_nonneg x, Int.natCast_nonneg y⟩]
    simp only [Int.toNat_natCast]
    have hfind := cellEntries_find m.config m.grid x y hx hy
    by_cases he : emitCell (m.grid ((x : ℤ), (y : ℤ)))
    · rw [if_pos he] at hfind
      rw [show (generateMapXML m).cells = cellEntries m.config m.grid
          from rfl, hfind]
      rw [hcells x y hx hy]
    · rw [if_neg he] at hfind
      rw [show (generateMapXML m).cells = cellEntries m.config m.grid
          from rfl, hfind]
      have hty : (m.grid ((x : ℤ), (y : ℤ))).type = .UNKNOWN := by
        by_contra hc
        exact he (Or.inl hc)
      have hvi : (m.grid ((x : ℤ), (y : ℤ))).visited = false := by
        by_contra hc
        exact he (Or.inr (by simpa using hc))
      obtain ⟨hcf, hts⟩ := hsparse x y hx hy hty hvi
      unfold initialCell
      rw [← hty, ← hcf, ← hts, ← hvi]
  · unfold loadWaypoints generateMapXML waypointEntries
    rw [List.map_map]
    conv_rhs => rw [← List.map_id m.waypoints]
    refine List.map_congr_left fun w hw => ?_
    obtain ⟨h1, h2⟩ := hwps w hw
    simp only [Function.comp_apply, id_eq]
    rw [h1, h2]

/-- Witness for C5's amended theorem: the 2-by-2 fixture round-trips its
Obstacle cell and its waypoint list exactly. -/
theorem serialize_load_roundtrip_witness :
    loadCells (generateMapXML c5State) ((1 : ℤ), (0 : ℤ))
      = c5State.grid ((1 : ℤ), (0 : ℤ))
    ∧ loadWaypoints (generateMapXML c5State) = c5State.waypoints := by
  have h1 : ∀ x y : ℕ, x < c5State.config.mapWidth →
      y < c5State.config.mapHeight →
      round2 (c5State.grid ((x : ℤ), (y : ℤ))).confidence
        = (c5State.grid ((x : ℤ), (y : ℤ))).confidence := by
    intro x y hx hy
    have hx2 : x < 2 := hx
    have hy2 : y < 2 := hy
    interval_cases x <;> interval_cases y <;>
      norm_num [c5State, setCell, initGrid, initialCell, round2, round_eq,
        Prod.ext_iff]
  have h2 : ∀ x y : ℕ, x < c5State.config.mapWidth →
      y < c5State.config.mapHeight →
      (c5State.grid ((x : ℤ), (y : ℤ))).type = .UNKNOWN →
      (c5State.grid ((x : ℤ), (y : ℤ))).visited = false →
      (c5State.grid ((x : ℤ), (y : ℤ))).confidence = 0
        ∧ (c5State.grid ((x : ℤ), (y : ℤ))).timestamp = 0 := by
    intro x y hx hy hty hvi
    have hx2 : x < 2 := hx
    have hy2 : y < 2 := hy
    interval_cases x <;> interval_cases y <;>
      simp_all [c5State, setCell, initGrid, initialCell, Prod.ext_iff,
        (by decide : MapCellType.OBSTACLE ≠ MapCellType.UNKNOWN)]
  have h3 : ∀ w ∈ c5State.waypoints, round2 w.x = w.x ∧ round2 w.y = w.y := by
    intro w hw
    simp only [c5State, List.mem_singleton] at hw
    subst hw
    norm_num [round2, round_eq]
  exact ⟨(serialize_load_roundtrip c5State h1 h2 h3).1 1 0
      (by norm_num [c5State]) (by norm_num [c5State]),
    (serialize_load_roundtrip c5State h1 h2 h3).2⟩

/-- Counterexample for CLAIM C5 as stated.  A waypoint at x = 0.125 is
serialized by `String(float)` at two decimals as 0.13, so
serialize-then-load does not return an identical waypoint set (by
coordinates): the loaded list differs from the stored one. -/
theorem waypoint_roundtrip_loses_precision :
    round2 (1/8) ≠ (1/8 : ℚ)
    ∧ loadWaypoints (generateMapXML c5BadState) ≠ c5BadState.waypoints := by
  constructor
  · norm_num [round2, round_eq]
  · norm_num [loadWaypoints, generateMapXML, waypointEntries, c5BadState,
      round2, round_eq, Waypoint.mk.injEq]

/-- Witness for C9's amended theorem: iterating the Obstacle/0.9 update on
a fresh cell settles at confidence max(0, 0.9) = 0.9 from step 4 on (shown
at step 9). -/
theorem repeated_obstacle_update_monotone_bounded_witness :
    ((SLAM.applyCellUpdate .OBSTACLE (9/10) 0)^[5+4] initialCell).confidence
      = max initialCell.confidence (9/10) :=
  (repeated_obstacle_update_monotone_bounded initialCell 0
    (by norm_num [initialCell]) (by norm_num [initialCell])
    (fun _ => by norm_num [initialCell])).2.2 5

end Rover
